import Mathlib

/-!
Shallow embedding of `src/main.py` (a Telegram daily-tasks bot).

The bot keeps one JSON configuration record (`DEFAULT_CFG` merged with the
persisted file), exposes chat commands that mutate it, renders the task list
as a Telegram poll (or a fixed text message when the list is empty) and
re-arms a single daily job on every scheduling-relevant mutation.

Pure data and control flow are translated directly; effects are made
explicit: a command returns the persisted record, the replies it sent and
whether it re-armed the scheduler; the scheduler is a list of named jobs;
`datetime.now(...).strftime("%Y-%m-%d")` is an explicit `today` argument.
-/

namespace RavenBot

/-- The configuration record, mirroring `DEFAULT_CFG` in `main.py`
(fields in the dictionary's insertion order).  Note that the record has
no `owner`, `timezone` or `template` field. -/
structure Config where
  tasks : List String
  target_chat_id : Option Int
  target_thread_id : Option Int
  send_time : String
  post_on_start : Bool
deriving Repr, DecidableEq

/-- Translation of `DEFAULT_CFG` from `main.py`. -/
def DEFAULT_CFG : Config :=
  { tasks := []
  , target_chat_id := none
  , target_thread_id := none
  , send_time := "09:00"
  , post_on_start := false }

/-! Helpers for Python string and int semantics. -/

/-- Python truthiness of an optional integer (`if not chat_id: ...`):
`None` and `0` are falsy. -/
def pyTruthyOptInt : Option Int → Bool
  | none => false
  | some n => !(n == 0)

/-- Python truthiness of an optional string (`title_prefix` check):
`None` and the empty string are falsy. -/
def pyTruthyOptStr : Option String → Bool
  | none => false
  | some s => !(s == "")

/-- Strip leading and trailing whitespace from a character list
(Python `str.strip()` / the stripping `int()` performs). -/
def stripChars (cs : List Char) : List Char :=
  ((cs.dropWhile Char.isWhitespace).reverse.dropWhile Char.isWhitespace).reverse

/-- Python `str.strip()`. -/
def pyStrip (s : String) : String := ⟨stripChars s.data⟩

/-- Accumulate a decimal value over a list of characters; `none` as soon as a
non-digit character occurs. -/
def digitsVal : List Char → Nat → Option Nat
  | [], acc => some acc
  | c :: rest, acc =>
    if c.isDigit then digitsVal rest (acc * 10 + (c.toNat - 48)) else none

/-- Value of a non-empty all-digit character list. -/
def digitsToNat : List Char → Option Nat
  | [] => none
  | cs => digitsVal cs 0

/-- Python `int(...)` on an already-stripped character list: optional sign
followed by at least one decimal digit. -/
def pyIntCore : List Char → Option Int
  | '-' :: rest => (digitsToNat rest).map (fun n => -(n : Int))
  | '+' :: rest => (digitsToNat rest).map (fun n => (n : Int))
  | cs => (digitsToNat cs).map (fun n => (n : Int))

/-- Python `int(s)` for decimal strings (whitespace around the number is
ignored, as `int` strips it). -/
def pyInt (s : String) : Option Int := pyIntCore (stripChars s.data)

/-- Python `s.split(sep)` for a one-character separator, on character
lists: always returns at least one (possibly empty) chunk. -/
def splitCharAux (sep : Char) : List Char → List (List Char)
  | [] => [[]]
  | c :: rest =>
    match splitCharAux sep rest with
    | [] => [[]]
    | chunk :: more =>
      if c = sep then [] :: chunk :: more else (c :: chunk) :: more

/-- Parse `hh, mm = map(int, s.split(":"))` followed by the range check
`0 <= hh < 24 and 0 <= mm < 60` (the check `settime_cmd` asserts, and the
one `datetime.time(hour=hh, minute=mm)` enforces in `reschedule_jobs`).
`none` models the raised `ValueError`/`AssertionError`. -/
def parseHHMM (s : String) : Option (Nat × Nat) :=
  match (splitCharAux ':' s.data).map (fun cs => pyIntCore (stripChars cs)) with
  | [some hh, some mm] =>
    if 0 ≤ hh ∧ hh < 24 ∧ 0 ≤ mm ∧ mm < 60 then
      some (hh.toNat, mm.toNat)
    else none
  | _ => none

/-- Python `f"{n:02d}"` for `0 ≤ n < 100`: exactly two decimal digits. -/
def fmt02 (n : Nat) : String :=
  ⟨[Char.ofNat (48 + n / 10), Char.ofNat (48 + n % 10)]⟩

/-- The stored time string `f"{hh:02d}:{mm:02d}"`. -/
def timeString (hh mm : Nat) : String := fmt02 hh ++ ":" ++ fmt02 mm

/-- Python `sep.join(parts)`. -/
def joinWith (sep : String) : List String → String
  | [] => ""
  | [s] => s
  | s :: rest => s ++ sep ++ joinWith sep rest

/-! Renderer and delivery: `format_tasks`, `send_poll_to`, `send_tasks`. -/

/-- A payload delivered through the Telegram transport: either
`bot.send_message` or `bot.send_poll` with its arguments. -/
inductive Payload where
  | textMsg (chat : Int) (thread : Option Int) (text : String)
  | poll (chat : Int) (thread : Option Int) (question : String)
      (options : List String) (allowsMultiple : Bool) (anonymous : Bool)
deriving Repr, DecidableEq

/-- The fixed empty-list prompt the bot sends. -/
def emptyTasksMsg : String := "Список задач пуст. Добавьте: /addtask <текст>"

/-- Translation of `format_tasks` from `main.py`. -/
def format_tasks (tasks : List String) : String :=
  if tasks = [] then emptyTasksMsg
  else joinWith "\n" (tasks.enum.map (fun p => toString (p.1 + 1) ++ ". " ++ p.2))

/-- The poll question `f"{title_prefix + ' - ' if title_prefix else ''}Задачи на {today}"`. -/
def pollQuestion (titlePfx : Option String) (today : String) : String :=
  (if pyTruthyOptStr titlePfx then titlePfx.getD "" ++ " - " else "") ++
    "Задачи на " ++ today

/-- Translation of `send_poll_to` from `main.py`: the list of payloads handed to the
transport.  `today` stands for `datetime.now(get_tzinfo()).strftime("%Y-%m-%d")`. -/
def send_poll_to (today : String) (chat : Int) (tasks : List String)
    (thread : Option Int) (titlePfx : Option String) : List Payload :=
  if tasks = [] then
    [Payload.textMsg chat thread emptyTasksMsg]
  else
    [Payload.poll chat thread (pollQuestion titlePfx today) (tasks.take 10) true false]

/-- Translation of `send_tasks` from `main.py` (the scheduled `fire()` body): skips when the
stored chat id is falsy, otherwise delegates to `send_poll_to` with the
fixed daily prefix. -/
def send_tasks (today : String) (cfg : Config) : List Payload :=
  if pyTruthyOptInt cfg.target_chat_id then
    send_poll_to today (cfg.target_chat_id.getD 0) cfg.tasks
      cfg.target_thread_id (some "Ежедневный чек-лист")
  else []

/-! Command handlers.

Each handler is translated as a function from the loaded record to the
record it persists (`save_config`), the replies it sends and whether it
called `reschedule_jobs`.  When a handler rejects its input it returns the
record unchanged (no `save_config` call happened). -/

/-- Observable outcome of one command handler. -/
structure CmdOut where
  cfg : Config
  replies : List String
  rearmed : Bool
deriving Repr, DecidableEq

/-- Translation of `settime_cmd` from `main.py`. -/
def settime_cmd (args : List String) (cfg : Config) : CmdOut :=
  match args with
  | [] => ⟨cfg, ["Укажи время в формате HH:MM, например: /settime 09:00"], false⟩
  | a :: _ =>
    match parseHHMM (pyStrip a) with
    | none => ⟨cfg, ["Неверный формат. Пример: /settime 09:00"], false⟩
    | some (hh, mm) =>
      let cfg' := { cfg with send_time := timeString hh mm }
      ⟨cfg', ["Ок! Теперь отправляю ежедневно в " ++ cfg'.send_time ++ "."], true⟩

/-- The command handlers receive the calling user's identity inside the
`update` object but never consult it; this wrapper makes that explicit. -/
def settimeFromCaller (caller : Int) (args : List String) (cfg : Config) : CmdOut :=
  settime_cmd args cfg

/-- Translation of `addtask_cmd` from `main.py`. -/
def addtask_cmd (args : List String) (cfg : Config) : CmdOut :=
  let text := pyStrip (joinWith " " args)
  if text = "" then ⟨cfg, ["Использование: /addtask <текст задачи>"], false⟩
  else
    ⟨{ cfg with tasks := cfg.tasks ++ [text] }, ["Добавил задачу:\n• " ++ text], false⟩

/-- Translation of `deltask_cmd` from `main.py` (`idx = int(args[0]) - 1`, bounds-checked,
then `tasks.pop(idx)`). -/
def deltask_cmd (args : List String) (cfg : Config) : CmdOut :=
  match args with
  | [] => ⟨cfg, ["Использование: /deltask <номер>"], false⟩
  | a :: _ =>
    match pyInt a with
    | none => ⟨cfg, ["Номер должен быть числом. Пример: /deltask 2"], false⟩
    | some n =>
      let idx : Int := n - 1
      if 0 ≤ idx ∧ idx < (cfg.tasks.length : Int) then
        ⟨{ cfg with tasks := cfg.tasks.eraseIdx idx.toNat },
          ["Удалил:\n• " ++ cfg.tasks.getD idx.toNat ""], false⟩
      else ⟨cfg, ["Нет такой задачи. Посмотри /listtasks"], false⟩

/-- Translation of `cleartasks_cmd` from `main.py`. -/
def cleartasks_cmd (cfg : Config) : CmdOut :=
  ⟨{ cfg with tasks := [] }, ["Список задач очищен."], false⟩

/-- Translation of `bind_cmd` from `main.py`: records the current chat/thread and re-arms. -/
def bind_cmd (chat : Int) (thread : Option Int) (cfg : Config) : CmdOut :=
  ⟨{ cfg with target_chat_id := some chat, target_thread_id := thread }
  , ["Привязано!\nchat_id = " ++ toString chat ++ "\nthread_id = " ++
      (match thread with | none => "None" | some t => toString t)]
  , true⟩

/-- Translation of `listtasks_cmd` from `main.py`: the replies it sends (it never writes). -/
def listtasks_cmd (cfg : Config) : List String :=
  if cfg.tasks = [] then [emptyTasksMsg]
  else ["Текущие задачи:\n" ++ format_tasks cfg.tasks]

/-! Scheduler: `reschedule_jobs`.

The `JobQueue` is modelled as a list of named jobs; `run_daily` appends a
job named `"daily_tasks"`, `run_once` one named `"daily_tasks_first_run"`. -/

/-- One scheduled job in the queue. -/
structure Job where
  name : String
  hour : Nat
  minute : Nat
  daily : Bool
deriving Repr, DecidableEq

/-- The recurring daily job `reschedule_jobs` installs. -/
def dailyJob (hh mm : Nat) : Job := ⟨"daily_tasks", hh, mm, true⟩

/-- The one-shot start-up job (`run_once(..., when=1)`). -/
def firstRunJob : Job := ⟨"daily_tasks_first_run", 0, 0, false⟩

/-- Removal step `job.schedule_removal()` for every job named `"daily_tasks"`. -/
def removeDaily (jobs : List Job) : List Job :=
  jobs.filter (fun j => !(j.name == "daily_tasks"))

/-- Outcome of `reschedule_jobs`: the job queue afterwards, and whether an
exception escaped (`raised = true` models the `ValueError` from parsing
`send_time`, which propagates after the old job was already removed). -/
structure RescheduleOut where
  jobs : List Job
  raised : Bool
deriving Repr, DecidableEq

/-- Number of pending daily triggers in the queue. -/
def countDaily (jobs : List Job) : Nat :=
  (jobs.filter (fun j => j.name == "daily_tasks")).length

/-- Translation of `reschedule_jobs` from `main.py`: remove any `"daily_tasks"` job, skip
scheduling when the chat id or the time string is falsy, otherwise parse
`send_time` and install one `run_daily` job (plus the one-shot start-up job
when `first_run` and `post_on_start`). -/
def reschedule_jobs (jobs : List Job) (cfg : Config) (firstRun : Bool) : RescheduleOut :=
  let cleaned := removeDaily jobs
  if pyTruthyOptInt cfg.target_chat_id = false ∨ cfg.send_time = "" then
    ⟨cleaned, false⟩
  else
    match parseHHMM cfg.send_time with
    | none => ⟨cleaned, true⟩
    | some (hh, mm) =>
      ⟨cleaned ++ [dailyJob hh mm] ++
        (if firstRun ∧ cfg.post_on_start then [firstRunJob] else []), false⟩

/-! Storage, reading side: `load_config`.

`load_config` reads `CONFIG_PATH`, falls back to `{}` when `open`/`json.load`
raises, then runs `merged = DEFAULT_CFG.copy(); merged.update(cfg or {})`.
The file's possible states are: absent, present but unparseable, or present
and parsed to a JSON value.  A Python dict is a key/value list in insertion
order. -/

/-- A parsed JSON value (what `json.load` can return). -/
inductive Json where
  | jnull
  | jbool (b : Bool)
  | jnum (n : Int)
  | jstr (s : String)
  | jarr (xs : List Json)
  | jobj (kvs : List (Json × Json))
deriving Repr

mutual

/-- Python `==` on parsed JSON values: deep structural equality.  (The
numeric quirks `True == 1` and `1.0 == 1` are not modelled; no theorem
below depends on mixed-type keys.) -/
def jeq : Json → Json → Bool
  | .jnull, .jnull => true
  | .jbool a, .jbool b => a == b
  | .jnum a, .jnum b => a == b
  | .jstr a, .jstr b => a == b
  | .jarr a, .jarr b => jeqList a b
  | .jobj a, .jobj b => jeqKV a b
  | _, _ => false

/-- Elementwise `jeq` on lists. -/
def jeqList : List Json → List Json → Bool
  | [], [] => true
  | x :: xs, y :: ys => jeq x y && jeqList xs ys
  | _, _ => false

/-- Elementwise `jeq` on key/value lists. -/
def jeqKV : List (Json × Json) → List (Json × Json) → Bool
  | [], [] => true
  | (k1, v1) :: xs, (k2, v2) :: ys => jeq k1 k2 && jeq v1 v2 && jeqKV xs ys
  | _, _ => false

end

/-- Python truthiness of a JSON value (`cfg or {}`). -/
def jtruthy : Json → Bool
  | .jnull => false
  | .jbool b => b
  | .jnum n => !(n == 0)
  | .jstr s => !(s == "")
  | .jarr xs => !xs.isEmpty
  | .jobj kvs => !kvs.isEmpty

/-- A value Python can use as a dict key (hashable). -/
def jhashable : Json → Bool
  | .jarr _ => false
  | .jobj _ => false
  | _ => true

/-- Assignment `d[k] = v` on a Python dict: replace in place, else append. -/
def dictInsert (d : List (Json × Json)) (k v : Json) : List (Json × Json) :=
  match d with
  | [] => [(k, v)]
  | (k', v') :: rest =>
    if jeq k k' then (k, v) :: rest else (k', v') :: dictInsert rest k v

/-- One element of a `dict.update(sequence)` argument: must iterate to
exactly two items (a two-element array, a two-character string, or a
two-key dict — iterating a dict yields its keys); anything else raises. -/
def pairOfElem : Json → Except String (Json × Json)
  | .jarr [k, v] => .ok (k, v)
  | .jarr _ => .error "update sequence element has wrong length"
  | .jstr s =>
    match s.data with
    | [c1, c2] => .ok (.jstr ⟨[c1]⟩, .jstr ⟨[c2]⟩)
    | _ => .error "update sequence element has wrong length"
  | .jobj [kv1, kv2] => .ok (kv1.1, kv2.1)
  | .jobj _ => .error "update sequence element has wrong length"
  | _ => .error "cannot convert update sequence element"

/-- Update `d.update(elems)` for a sequence argument. -/
def updateFromPairs (d : List (Json × Json)) : List Json → Except String (List (Json × Json))
  | [] => .ok d
  | e :: rest => do
    let (k, v) ← pairOfElem e
    if jhashable k then updateFromPairs (dictInsert d k v) rest
    else .error "unhashable key"

/-- Python `merged.update(x)`: a dict argument merges key by key; an
iterable argument must yield key/value pairs; a non-iterable raises
`TypeError`.  The `Except` value models the escaping exception. -/
def dictUpdate (d : List (Json × Json)) : Json → Except String (List (Json × Json))
  | .jobj kvs => .ok (kvs.foldl (fun acc kv => dictInsert acc kv.1 kv.2) d)
  | .jarr xs => updateFromPairs d xs
  | .jstr s => updateFromPairs d (s.data.map (fun c => .jstr ⟨[c]⟩))
  | _ => .error "not iterable"

/-- The state of the persisted file as `load_config` can encounter it. -/
inductive Storage where
  | absent
  | unparseable
  | parsed (j : Json)
deriving Repr

/-- The dict `DEFAULT_CFG.copy()` that `load_config` merges into. -/
def defaultEntries : List (Json × Json) :=
  [ (.jstr "tasks", .jarr [])
  , (.jstr "target_chat_id", .jnull)
  , (.jstr "target_thread_id", .jnull)
  , (.jstr "send_time", .jstr "09:00")
  , (.jstr "post_on_start", .jbool false) ]

/-- Translation of `load_config` from `main.py`.  An `Except.error` models an exception
escaping to the caller (the function has no handler around
`merged.update(cfg or {})`). -/
def load_config : Storage → Except String (List (Json × Json))
  | .absent => .ok defaultEntries
  | .unparseable => dictUpdate defaultEntries (.jobj [])
  | .parsed j => dictUpdate defaultEntries (if jtruthy j then j else .jobj [])

/-! Storage, writing side: `save_config`.

`save_config` runs `open(CONFIG_PATH, "w")` — which truncates the canonical
file in place — and then `json.dump(cfg, f, ensure_ascii=False, indent=2)`.
`saveObservedStates prev cfg` lists the file contents a concurrent reader
can observe during the save: the previous content, the truncated file, and
the fully written record.  No temporary file is involved. -/

/-- A hexadecimal digit character. -/
def hexDigit (n : Nat) : Char :=
  if n < 10 then Char.ofNat (48 + n) else Char.ofNat (87 + n)

/-- JSON escaping of one character, as `json.dump(..., ensure_ascii=False)`
performs it. -/
def escChar (c : Char) : List Char :=
  if c = '"' then ['\\', '"']
  else if c = '\\' then ['\\', '\\']
  else if c = '\n' then ['\\', 'n']
  else if c = '\t' then ['\\', 't']
  else if c = '\r' then ['\\', 'r']
  else if c.toNat = 8 then ['\\', 'b']
  else if c.toNat = 12 then ['\\', 'f']
  else if c.toNat < 32 then ['\\', 'u', '0', '0', hexDigit (c.toNat / 16), hexDigit (c.toNat % 16)]
  else [c]

/-- A JSON string literal. -/
def jsonQuote (s : String) : String := "\"" ++ ⟨(s.data.map escChar).flatten⟩ ++ "\""

/-- Serialization of the task list at nesting depth 1 with `indent=2`. -/
def serializeTasks : List String → String
  | [] => "[]"
  | ts => "[\n    " ++ joinWith ",\n    " (ts.map jsonQuote) ++ "\n  ]"

/-- Serialization of an optional integer. -/
def serializeOptInt : Option Int → String
  | none => "null"
  | some n => toString n

/-- The exact bytes `json.dump(cfg, f, ensure_ascii=False, indent=2)`
writes for a configuration record. -/
def serialize_config (cfg : Config) : String :=
  "\x7b\n  \"tasks\": " ++ serializeTasks cfg.tasks ++
    ",\n  \"target_chat_id\": " ++ serializeOptInt cfg.target_chat_id ++
    ",\n  \"target_thread_id\": " ++ serializeOptInt cfg.target_thread_id ++
    ",\n  \"send_time\": " ++ jsonQuote cfg.send_time ++
    ",\n  \"post_on_start\": " ++ (if cfg.post_on_start then "true" else "false") ++
    "\n\x7d"

/-- The sequence of canonical-file contents observable while `save_config`
runs, starting from previous content `prev`: `open(..., "w")` truncates the
file, then the serialized record is written. -/
def saveObservedStates (prev : String) (cfg : Config) : List String :=
  [prev, "", serialize_config cfg]

/-! Reachable persisted records.

Only the five handlers below ever call `save_config`; the remaining
handlers (`start`, `whereami`, `listtasks`, `preview`, `postnow`) read the
record without writing it.  `Reachable` is the set of records obtainable
from `DEFAULT_CFG` through command handling. -/

/-- A mutating chat command together with its arguments. -/
inductive Cmd where
  | settime (args : List String)
  | addtask (args : List String)
  | deltask (args : List String)
  | cleartasks
  | bind (chat : Int) (thread : Option Int)

/-- The record a command handler persists (equal to its input when the
command is rejected). -/
def applyCmd : Cmd → Config → Config
  | .settime args, cfg => (settime_cmd args cfg).cfg
  | .addtask args, cfg => (addtask_cmd args cfg).cfg
  | .deltask args, cfg => (deltask_cmd args cfg).cfg
  | .cleartasks, cfg => (cleartasks_cmd cfg).cfg
  | .bind c t, cfg => (bind_cmd c t cfg).cfg

/-- Configuration records reachable from the default record through
command handling. -/
inductive Reachable : Config → Prop
  | init : Reachable DEFAULT_CFG
  | step (c : Cmd) {cfg : Config} : Reachable cfg → Reachable (applyCmd c cfg)

/-- A stored time string produced by a valid `settime`. -/
def validTime (s : String) : Prop :=
  ∃ hh mm, hh < 24 ∧ mm < 60 ∧ s = timeString hh mm

/-- Condition under which `reschedule_jobs` installs the daily job: truthy
chat id, non-empty time string, and a parseable time. -/
def armedB (cfg : Config) : Bool :=
  pyTruthyOptInt cfg.target_chat_id && !(cfg.send_time == "") &&
    (parseHHMM cfg.send_time).isSome

/-! Auxiliary predicates and concrete fixtures used in the statements. -/

/-- Check whether `pat` is an initial segment of `l`. -/
def listStartsWith : List Char → List Char → Bool
  | [], _ => true
  | _ :: _, [] => false
  | p :: ps, c :: cs => p == c && listStartsWith ps cs

/-- Check whether `pat` occurs contiguously inside `l`. -/
def hasSubList (pat : List Char) : List Char → Bool
  | [] => listStartsWith pat []
  | c :: cs => listStartsWith pat (c :: cs) || hasSubList pat cs

/-- An eleven-element task list. -/
def elevenTasks : List String :=
  ["T1", "T2", "T3", "T4", "T5", "T6", "T7", "T8", "T9", "T10", "T11"]

/-- A 310-character task text. -/
def longTask : String := ⟨List.replicate 310 'a'⟩

/-- The default record with a destination chat bound. -/
def boundCfg : Config := { DEFAULT_CFG with target_chat_id := some 5 }

/-! Helper lemmas. -/

set_option maxRecDepth 4000

/-- A stored `f"{hh:02d}:{mm:02d}"` string parses back to `(hh, mm)`. -/
theorem parse_timeString : ∀ hh : Nat, hh < 24 → ∀ mm : Nat, mm < 60 →
    parseHHMM (timeString hh mm) = some (hh, mm) := by decide

/-- A successful parse only returns in-range components. -/
theorem parseHHMM_bounds {s : String} {hh mm : Nat}
    (h : parseHHMM s = some (hh, mm)) : hh < 24 ∧ mm < 60 := by
  unfold parseHHMM at h
  split at h
  · split at h
    · rename_i hcond
      obtain ⟨h1, h2, h3, h4⟩ := hcond
      simp only [Option.some.injEq, Prod.mk.injEq] at h
      obtain ⟨ha, hb⟩ := h
      subst ha
      subst hb
      constructor <;> omega
    · exact absurd h (by simp)
  · exact absurd h (by simp)

/-- Cleaning is idempotent. -/
theorem removeDaily_idem (js : List Job) :
    removeDaily (removeDaily js) = removeDaily js := by
  simp [removeDaily, List.filter_filter]

/-- A cleaned queue holds no daily trigger. -/
theorem countDaily_removeDaily (js : List Job) :
    countDaily (removeDaily js) = 0 := by
  simp only [countDaily, removeDaily, List.filter_filter]
  simp

/-- Cleaning distributes over append. -/
theorem removeDaily_append (a b : List Job) :
    removeDaily (a ++ b) = removeDaily a ++ removeDaily b := by
  simp [removeDaily]

/-- Counting distributes over append. -/
theorem countDaily_append (a b : List Job) :
    countDaily (a ++ b) = countDaily a + countDaily b := by
  simp [countDaily]

/-- Handlers other than `settime_cmd` never change `send_time`. -/
theorem addtask_send_time (args : List String) (cfg : Config) :
    (addtask_cmd args cfg).cfg.send_time = cfg.send_time := by
  simp only [addtask_cmd]
  split <;> rfl

/-- Deletion never changes `send_time`. -/
theorem deltask_send_time (args : List String) (cfg : Config) :
    (deltask_cmd args cfg).cfg.send_time = cfg.send_time := by
  simp only [deltask_cmd]
  split
  · rfl
  · split
    · rfl
    · split <;> rfl

/-- Outcome of `settime_cmd` on `send_time`: unchanged or freshly valid. -/
theorem settime_send_time (args : List String) (cfg : Config) :
    (settime_cmd args cfg).cfg.send_time = cfg.send_time ∨
      validTime (settime_cmd args cfg).cfg.send_time := by
  unfold settime_cmd
  split
  · left; rfl
  · split
    · left; rfl
    · rename_i hp
      right
      exact ⟨_, _, (parseHHMM_bounds hp).1, (parseHHMM_bounds hp).2, rfl⟩

/-- Every reachable record stores a valid time string. -/
theorem reachable_validTime {cfg : Config} (h : Reachable cfg) :
    validTime cfg.send_time := by
  induction h with
  | init => exact ⟨9, 0, by omega, by omega, by decide⟩
  | step c hr ih =>
    cases c with
    | settime args =>
      rcases settime_send_time args _ with h' | h'
      · rw [applyCmd, h']; exact ih
      · exact h'
    | addtask args => rw [applyCmd, addtask_send_time]; exact ih
    | deltask args => rw [applyCmd, deltask_send_time]; exact ih
    | cleartasks => exact ih
    | bind c t => exact ih

/-- With a parseable stored time, `reschedule_jobs` never raises. -/
theorem reschedule_noraise {cfg : Config}
    (h : (parseHHMM cfg.send_time).isSome = true) (js : List Job) (fr : Bool) :
    (reschedule_jobs js cfg fr).raised = false := by
  unfold reschedule_jobs
  split
  · rfl
  · split
    · rename_i hp
      rw [hp] at h
      simp at h
    · rfl

/-- A non-empty serialization: the record always serializes to a string
starting with a brace. -/
theorem serialize_config_ne_empty (cfg : Config) : serialize_config cfg ≠ "" := by
  intro h
  obtain ⟨rest, hr⟩ : ∃ rest, (serialize_config cfg).data = '\x7b' :: rest := ⟨_, rfl⟩
  rw [h] at hr
  exact absurd hr (by simp)

/-! Claim theorems. -/

/-- C1 counterexample: with eleven tasks the renderer produces a single
poll (not `ceil(11/10) = 2`), its options are only the first ten tasks, so
concatenating the options of all produced polls does not reproduce the task
list, and the question carries no `(i/N)` suffix. -/
theorem chunking_counterexample :
    (send_poll_to "2026-10-12" 5 elevenTasks none none).length = 1 ∧
    (elevenTasks.length + 9) / 10 = 2 ∧
    send_poll_to "2026-10-12" 5 elevenTasks none none =
      [Payload.poll 5 none "Задачи на 2026-10-12" (elevenTasks.take 10) true false] ∧
    elevenTasks.take 10 ≠ elevenTasks := by decide

/-- C1 amended: rendering a non-empty task list yields exactly one poll
whose options are the first ten tasks in original order (tasks beyond the
tenth are silently dropped); the question is the running date with the
optional title prefix and never carries an `(i/N)` suffix. -/
theorem chunking_amended (today : String) (chat : Int) (thread : Option Int)
    (titlePfx : Option String) (tasks : List String) (h : tasks ≠ []) :
    send_poll_to today chat tasks thread titlePfx =
      [Payload.poll chat thread (pollQuestion titlePfx today) (tasks.take 10) true false] := by
  simp [send_poll_to, h]

/-- C1 amended, witnessed at a concrete input. -/
theorem chunking_amended_witness :
    (["Buy milk", "Call Bob"] : List String) ≠ [] ∧
    send_poll_to "2026-10-12" 5 ["Buy milk", "Call Bob"] none (some "ПРЕВЬЮ") =
      [Payload.poll 5 none (pollQuestion (some "ПРЕВЬЮ") "2026-10-12")
        (["Buy milk", "Call Bob"].take 10) true false] :=
  ⟨by decide, chunking_amended "2026-10-12" 5 none (some "ПРЕВЬЮ") _ (by decide)⟩

/-- C2 counterexample: caller 1 runs `settime` first on the default record
(no owner is recorded anywhere — the record has no owner field), then a
different caller 2 runs `settime` again: the second operation succeeds with
a confirmation reply and changes the persisted state instead of being
rejected. -/
theorem ownership_counterexample :
    (settimeFromCaller 1 ["08:00"] DEFAULT_CFG).cfg =
      { DEFAULT_CFG with send_time := "08:00" } ∧
    (settimeFromCaller 2 ["10:00"] { DEFAULT_CFG with send_time := "08:00" }).cfg.send_time
      = "10:00" ∧
    (settimeFromCaller 2 ["10:00"] { DEFAULT_CFG with send_time := "08:00" }).replies =
      ["Ок! Теперь отправляю ежедневно в 10:00."] ∧
    (settimeFromCaller 2 ["10:00"] { DEFAULT_CFG with send_time := "08:00" }).cfg ≠
      { DEFAULT_CFG with send_time := "08:00" } := by decide

/-- C2 amended: there is no ownership gate — the record has no owner field,
and the outcome of an owner-gated-style command is completely independent
of the caller's identity; in particular a valid `settime` from any caller
succeeds, mutates the persisted state and re-arms the scheduler. -/
theorem ownership_amended :
    (∀ u v : Int, ∀ args cfg, settimeFromCaller u args cfg = settimeFromCaller v args cfg) ∧
    (∀ v : Int, ∀ cfg, (settimeFromCaller v ["10:00"] cfg).cfg.send_time = "10:00" ∧
      (settimeFromCaller v ["10:00"] cfg).rearmed = true) :=
  ⟨fun _ _ _ _ => rfl, fun _ _ => ⟨rfl, rfl⟩⟩

/-- C3 counterexample: a firing with an empty task list delivers the fixed
prompt text, which does not contain the running date (so it is not a
template expansion substituting the date), and a firing with a non-empty
task list delivers a poll, not a numbered text listing. -/
theorem empty_fire_counterexample :
    send_tasks "2026-10-12" boundCfg = [Payload.textMsg 5 none emptyTasksMsg] ∧
    hasSubList "2026-10-12".data emptyTasksMsg.data = false ∧
    send_tasks "2026-10-12" { boundCfg with tasks := ["Buy milk"] } =
      [Payload.poll 5 none "Ежедневный чек-лист - Задачи на 2026-10-12"
        ["Buy milk"] true false] := by decide

/-- C3 amended: a firing with an empty task list delivers the fixed prompt
`emptyTasksMsg` (no template mechanism, no date or weekday substitution)
and never a poll; a firing with a non-empty task list delivers a single
poll over the first ten tasks, not a numbered text listing. -/
theorem fire_payload_amended (today : String) (cfg : Config) (c : Int)
    (hc : cfg.target_chat_id = some c) (hc0 : c ≠ 0) :
    (cfg.tasks = [] → send_tasks today cfg =
      [Payload.textMsg c cfg.target_thread_id emptyTasksMsg]) ∧
    (cfg.tasks ≠ [] → send_tasks today cfg =
      [Payload.poll c cfg.target_thread_id
        (pollQuestion (some "Ежедневный чек-лист") today) (cfg.tasks.take 10) true false]) := by
  have ht : pyTruthyOptInt (some c) = true := by
    simp [pyTruthyOptInt, hc0]
  constructor
  · intro he
    simp [send_tasks, hc, ht, send_poll_to, he]
  · intro hne
    simp [send_tasks, hc, ht, send_poll_to, hne]

/-- C3 amended, witnessed at a concrete input. -/
theorem fire_payload_amended_witness :
    boundCfg.target_chat_id = some 5 ∧ (5 : Int) ≠ 0 ∧ boundCfg.tasks = [] ∧
    send_tasks "2026-10-12" boundCfg =
      [Payload.textMsg 5 boundCfg.target_thread_id emptyTasksMsg] :=
  ⟨rfl, by decide, rfl,
    (fire_payload_amended "2026-10-12" boundCfg 5 rfl (by decide)).1 rfl⟩

/-- C5 counterexample: the list command sends a header string of length
329 unmodified — it is not equal to its own 300-character truncation, so no
truncation to 300 characters happens before send. -/
theorem truncation_counterexample :
    listtasks_cmd { DEFAULT_CFG with tasks := [longTask] } =
      ["Текущие задачи:\n1. " ++ longTask] ∧
    300 < ("Текущие задачи:\n1. " ++ longTask).data.length ∧
    ("Текущие задачи:\n1. " ++ longTask) ≠
      ⟨("Текущие задачи:\n1. " ++ longTask).data.take 300⟩ := by decide

/-- C5 amended: no truncation is applied anywhere — header and question
strings are handed to the transport at full length, however long. -/
theorem truncation_amended :
    (∀ cfg, cfg.tasks ≠ [] →
      listtasks_cmd cfg = ["Текущие задачи:\n" ++ format_tasks cfg.tasks]) ∧
    (∀ today chat thread titlePfx tasks, tasks ≠ ([] : List String) →
      send_poll_to today chat tasks thread titlePfx =
        [Payload.poll chat thread (pollQuestion titlePfx today) (tasks.take 10) true false]) := by
  constructor
  · intro cfg h
    simp [listtasks_cmd, h]
  · intro today chat thread titlePfx tasks h
    simp [send_poll_to, h]

/-- C5 amended, witnessed at a concrete input. -/
theorem truncation_amended_witness :
    ({ DEFAULT_CFG with tasks := [longTask] } : Config).tasks ≠ [] ∧
    listtasks_cmd { DEFAULT_CFG with tasks := [longTask] } =
      ["Текущие задачи:\n" ++ format_tasks [longTask]] :=
  ⟨by decide, truncation_amended.1 { DEFAULT_CFG with tasks := [longTask] } (by decide)⟩

/-- C6: the code raises at a corrupt file whose content is the valid JSON
text `[1]` — it is truthy and not a dict, so `merged.update(cfg or {})`
raises `TypeError` instead of degrading to the default record; absent and
unparseable files do return the default record. -/
theorem load_config_raises :
    load_config (.parsed (.jarr [.jnum 1])) =
      .error "cannot convert update sequence element" ∧
    load_config .absent = .ok defaultEntries ∧
    load_config .unparseable = .ok defaultEntries :=
  ⟨rfl, rfl, rfl⟩

/-- C4 counterexample: during a save over a previously saved record, a
concurrent reader can observe the empty (truncated) canonical file — a
state that is neither the previous nor the new record — because
`save_config` opens the canonical path with mode `"w"` directly; no
temporary location or atomic replacement is involved. -/
theorem atomic_save_counterexample :
    "" ∈ saveObservedStates (serialize_config DEFAULT_CFG) DEFAULT_CFG ∧
    "" ≠ serialize_config DEFAULT_CFG := by decide

/-- C4 amended: `save_config` truncates the canonical file in place and
then writes the record, so whenever the previous content is non-empty a
concurrent reader can observe an intermediate state that differs from both
the previous and the new content; the write is not atomic. -/
theorem save_not_atomic (prev : String) (cfg : Config) (h : prev ≠ "") :
    ∃ s ∈ saveObservedStates prev cfg, s ≠ prev ∧ s ≠ serialize_config cfg := by
  refine ⟨"", by simp [saveObservedStates], fun hc => h hc.symm, ?_⟩
  intro hc
  exact serialize_config_ne_empty cfg hc.symm

/-- C4 amended, witnessed at a concrete input. -/
theorem save_not_atomic_witness :
    serialize_config DEFAULT_CFG ≠ "" ∧
    ∃ s ∈ saveObservedStates (serialize_config DEFAULT_CFG) DEFAULT_CFG,
      s ≠ serialize_config DEFAULT_CFG ∧ s ≠ serialize_config DEFAULT_CFG :=
  ⟨by decide, save_not_atomic (serialize_config DEFAULT_CFG) DEFAULT_CFG (by decide)⟩

/-- C7: an invalid `settime` string, an empty `addtask` text and an
out-of-range `deltask` index are each rejected with their specific
corrective message, with the persisted record unchanged and no re-arm. -/
theorem invalid_input_rejected :
    (∀ cfg a rest, parseHHMM (pyStrip a) = none →
      settime_cmd (a :: rest) cfg =
        ⟨cfg, ["Неверный формат. Пример: /settime 09:00"], false⟩) ∧
    (∀ cfg args, pyStrip (joinWith " " args) = "" →
      addtask_cmd args cfg =
        ⟨cfg, ["Использование: /addtask <текст задачи>"], false⟩) ∧
    (∀ cfg a rest n, pyInt a = some n →
      ¬(0 ≤ n - 1 ∧ n - 1 < (cfg.tasks.length : Int)) →
      deltask_cmd (a :: rest) cfg =
        ⟨cfg, ["Нет такой задачи. Посмотри /listtasks"], false⟩) := by
  refine ⟨?_, ?_, ?_⟩
  · intro cfg a rest h
    simp [settime_cmd, h]
  · intro cfg args h
    simp [addtask_cmd, h]
  · intro cfg a rest n h1 h2
    simp only [deltask_cmd, h1]
    rw [if_neg h2]

/-- C7, witnessed at concrete invalid inputs: `settime "25:00"`, an
argument-less `addtask`, and `deltask 5` on an empty task list. -/
theorem invalid_input_rejected_witness :
    (parseHHMM (pyStrip "25:00") = none ∧
      settime_cmd ["25:00"] DEFAULT_CFG =
        ⟨DEFAULT_CFG, ["Неверный формат. Пример: /settime 09:00"], false⟩) ∧
    (pyStrip (joinWith " " ([] : List String)) = "" ∧
      addtask_cmd [] DEFAULT_CFG =
        ⟨DEFAULT_CFG, ["Использование: /addtask <текст задачи>"], false⟩) ∧
    (pyInt "5" = some 5 ∧
      deltask_cmd ["5"] DEFAULT_CFG =
        ⟨DEFAULT_CFG, ["Нет такой задачи. Посмотри /listtasks"], false⟩) :=
  ⟨⟨by decide, invalid_input_rejected.1 DEFAULT_CFG "25:00" [] (by decide)⟩,
   ⟨rfl, invalid_input_rejected.2.1 DEFAULT_CFG [] rfl⟩,
   ⟨by decide, invalid_input_rejected.2.2 DEFAULT_CFG "5" [] 5 (by decide) (by decide)⟩⟩

/-- C8 counterexample: on the default configuration (no destination bound)
two successive `reschedule_jobs` calls leave zero pending daily triggers,
not exactly one. -/
theorem rearm_counterexample :
    countDaily (reschedule_jobs
      (reschedule_jobs [] DEFAULT_CFG false).jobs DEFAULT_CFG false).jobs = 0 ∧
    (0 : Nat) ≠ 1 := by decide

/-- C8 amended: a second `reschedule_jobs` call with unchanged
configuration reproduces the first call's outcome exactly, and one call
leaves exactly one pending daily trigger when the configuration is armable
(truthy destination and parseable non-empty time string) and zero
otherwise — never two; cancelling from a queue with no pending trigger is
handled the same way. -/
theorem rearm_idempotent (cfg : Config) (js : List Job) :
    reschedule_jobs (reschedule_jobs js cfg false).jobs cfg false =
      reschedule_jobs js cfg false ∧
    countDaily (reschedule_jobs js cfg false).jobs =
      (if armedB cfg then 1 else 0) := by
  unfold reschedule_jobs
  split
  · rename_i hskip
    constructor
    · simp [removeDaily_idem]
    · rw [if_neg]
      · exact countDaily_removeDaily js
      · intro harm
        rcases hskip with h1 | h2
        · simp [armedB, h1] at harm
        · simp [armedB, h2] at harm
  · rename_i hskip
    split
    · rename_i hp
      constructor
      · simp [hskip, removeDaily_idem, hp]
      · rw [if_neg]
        · exact countDaily_removeDaily js
        · intro harm
          simp [armedB, hp] at harm
    · rename_i hh mm hp
      constructor
      · simp only [removeDaily_append, removeDaily_idem]
        have h1 : removeDaily [dailyJob hh mm] = [] := rfl
        have h2 : removeDaily (if false ∧ cfg.post_on_start then [firstRunJob] else []) = [] := by
          simp [removeDaily]
        rw [h1, h2]
        simp [hskip, hp]
      · simp only [countDaily_append, countDaily_removeDaily]
        have h1 : countDaily [dailyJob hh mm] = 1 := rfl
        have h2 : countDaily (if false ∧ cfg.post_on_start then [firstRunJob] else []) = 0 := by
          simp [countDaily]
        rw [h1, h2, if_pos]
        push_neg at hskip
        simp [armedB, hskip.1, hskip.2, hp]

/-- C9: while the destination chat is null the system stays dormant —
`reschedule_jobs` raises nothing and leaves no pending daily trigger, and
the scheduled `fire()` body sends nothing and raises nothing. -/
theorem dormant_silent (cfg : Config) (js : List Job) (today : String)
    (h : cfg.target_chat_id = none) :
    (reschedule_jobs js cfg false).raised = false ∧
    countDaily (reschedule_jobs js cfg false).jobs = 0 ∧
    send_tasks today cfg = [] := by
  have ht : pyTruthyOptInt cfg.target_chat_id = false := by rw [h]; rfl
  refine ⟨?_, ?_, ?_⟩
  · simp [reschedule_jobs, ht]
  · simp [reschedule_jobs, ht, countDaily_removeDaily]
  · simp [send_tasks, ht]

/-- C9, witnessed at a concrete input. -/
theorem dormant_silent_witness :
    DEFAULT_CFG.target_chat_id = none ∧
    ((reschedule_jobs [] DEFAULT_CFG false).raised = false ∧
      countDaily (reschedule_jobs [] DEFAULT_CFG false).jobs = 0 ∧
      send_tasks "2026-10-12" DEFAULT_CFG = []) :=
  ⟨rfl, dormant_silent DEFAULT_CFG [] "2026-10-12" rfl⟩

/-- C10: every record reachable from the default through command handling
stores `send_time` as a zero-padded `"HH:MM"` with in-range components,
which parses back without error when the scheduler re-arms; no command
other than `settime` modifies `send_time`; and `settime "9:5"` stores
`"09:05"`. -/
theorem send_time_invariant :
    (∀ cfg, Reachable cfg → ∃ hh mm, hh < 24 ∧ mm < 60 ∧
      cfg.send_time = timeString hh mm ∧
      parseHHMM cfg.send_time = some (hh, mm) ∧
      ∀ js fr, (reschedule_jobs js cfg fr).raised = false) ∧
    (∀ cfg c, (∀ args, c ≠ Cmd.settime args) →
      (applyCmd c cfg).send_time = cfg.send_time) ∧
    (settime_cmd ["9:5"] DEFAULT_CFG).cfg.send_time = "09:05" := by
  refine ⟨?_, ?_, by decide⟩
  · intro cfg h
    obtain ⟨hh, mm, h1, h2, h3⟩ := reachable_validTime h
    have hp : parseHHMM cfg.send_time = some (hh, mm) := by
      rw [h3]
      exact parse_timeString hh h1 mm h2
    exact ⟨hh, mm, h1, h2, h3, hp,
      fun js fr => reschedule_noraise (by rw [hp]; rfl) js fr⟩
  · intro cfg c hc
    cases c with
    | settime args => exact absurd rfl (hc args)
    | addtask args => exact addtask_send_time args cfg
    | deltask args => exact deltask_send_time args cfg
    | cleartasks => rfl
    | bind ch t => rfl

/-- C10, witnessed at the default record. -/
theorem send_time_invariant_witness :
    Reachable DEFAULT_CFG ∧
    (∃ hh mm, hh < 24 ∧ mm < 60 ∧
      DEFAULT_CFG.send_time = timeString hh mm ∧
      parseHHMM DEFAULT_CFG.send_time = some (hh, mm) ∧
      ∀ js fr, (reschedule_jobs js DEFAULT_CFG fr).raised = false) ∧
    (applyCmd Cmd.cleartasks DEFAULT_CFG).send_time = DEFAULT_CFG.send_time :=
  ⟨Reachable.init,
   send_time_invariant.1 DEFAULT_CFG Reachable.init,
   send_time_invariant.2.1 DEFAULT_CFG Cmd.cleartasks (fun args h => by cases h)⟩

end RavenBot

